import Mathlib

/-!
Verification development for the LemmeWrite points ledger and PayPal webhook
receiver.  The definitions below are a shallow embedding of:

* `allocate_points_with_history` and `check_existing_allocation` from the
  final migration ("Final Fix for Double Points Allocation Issue"),
* `add_points_to_user` in its final form (after the migration that replaced
  `points_total = new_total` with `GREATEST(points_total, new_total)`),
* the webhook handlers of `supabase/functions/paypal-webhook/index.ts`.

Tables are embedded as explicit state: `user_points` and `user_subscriptions`
are keyed maps (the source tables carry unique keys on `user_id` and on
`paypal_subscription_id`), `payment_history` is an append-only list.
Timestamps (`now()`, `created_at`, ...) are dropped: no claim mentions them.
Advisory locks are a list of held lock keys; the plpgsql
`BEGIN ... EXCEPTION` block is modelled by a `failWrite` flag that makes the
history insert raise, whereupon the block rolls back its changes, releases
the lock and re-raises, exactly as the source exception handler does.
-/

namespace LemmeWrite

/-- A `user_points` row: `points_remaining` and `points_total`. -/
structure PointsRow where
  points_remaining : Int
  points_total : Int
  deriving DecidableEq

/-- A `payment_history` row.  `amount` and `currency` are nullable in the
table (the `payment_failed` insert supplies neither). -/
structure HistoryRow where
  user_id : String
  paypal_subscription_id : String
  event_type : String
  amount : Option Int
  currency : Option String
  deriving DecidableEq

/-- A `user_subscriptions` row (keyed by `paypal_subscription_id`). -/
structure SubRow where
  user_id : String
  plan_type : String
  status : String
  deriving DecidableEq

/-- The database state shared by the SQL functions and the webhook
handlers.  `user_profiles` is read only through its unique `email` key. -/
structure DB where
  user_points : String → Option PointsRow
  payment_history : List HistoryRow
  user_subscriptions : String → Option SubRow
  user_profiles : String → Option String

/-- The `event_type IN (...)` list used by the duplicate check of
`allocate_points_with_history` and by `check_existing_allocation`. -/
def allocationEventTypes : List String :=
  ["webhook_points_allocation", "manual_points_allocation",
   "subscription_activated", "payment_completed", "atomic_allocation"]

/-- The WHERE clause of the duplicate check: the row matches the
`(user_id, paypal_subscription_id)` pair and its `event_type` is in the
counts-as-allocation set. -/
def isAllocationRow (uid sub : String) (r : HistoryRow) : Bool :=
  r.user_id == uid && r.paypal_subscription_id == sub &&
    allocationEventTypes.contains r.event_type

/-- The `SELECT COUNT(*) FROM payment_history WHERE ...` of the duplicate check. -/
def existingAllocationCount (db : DB) (uid sub : String) : Nat :=
  (db.payment_history.filter (isAllocationRow uid sub)).length

/-- Embeds `check_existing_allocation`: whether the count is positive. -/
def check_existing_allocation (db : DB) (uid sub : String) : Bool :=
  decide (0 < existingAllocationCount db uid sub)

/-- The `INSERT INTO user_points ... VALUES (uid, 50, 50, ...) ON CONFLICT
(user_id) DO NOTHING`. -/
def ensureUserPoints (db : DB) (uid : String) : DB :=
  match db.user_points uid with
  | some _ => db
  | none =>
      { db with user_points := fun u => if u = uid then some ⟨50, 50⟩ else db.user_points u }

/-- The `UPDATE user_points SET points_remaining = new_total, points_total =
GREATEST(points_total, new_total) WHERE user_id = uid`.  An UPDATE that
matches no row changes nothing. -/
def updateUserPoints (db : DB) (uid : String) (new_total : Int) : DB :=
  match db.user_points uid with
  | none => db
  | some r =>
      { db with user_points := fun u =>
          if u = uid then some ⟨new_total, max r.points_total new_total⟩
          else db.user_points u }

/-- An `INSERT INTO payment_history (...) VALUES (...)`. -/
def insertPaymentHistory (db : DB) (row : HistoryRow) : DB :=
  { db with payment_history := db.payment_history ++ [row] }

/-- Result of a plpgsql call: a returned boolean, or a raised error. -/
inductive SqlResult where
  | ok (b : Bool)
  | error
  deriving DecidableEq

/-- Outcome of `allocate_points_with_history`: the advisory locks still
held, the database state, and the returned value. -/
structure AllocOutcome where
  locks : List Nat
  db : DB
  ret : SqlResult

/-!
MD5, needed for the lock-key derivation
`('x' || substr(md5(target_user_id::text || subscription_id), 1, 15))::bit(60)::bigint`:
the first fifteen hex digits of the md5 digest read as a 60-bit number.
32-bit machine words are `Nat` kept below `2 ^ 32` by explicit reduction.
-/

/-- The constant `2 ^ 32`, the modulus of md5 word arithmetic. -/
def M32 : Nat := 4294967296

/-- Bitwise complement on a 32-bit word. -/
def not32 (x : Nat) : Nat := (M32 - 1) - x % M32

/-- Left rotation of a 32-bit word by `s` places (`0 < s < 32`). -/
def rotl32 (x s : Nat) : Nat := (x * 2 ^ s + x / 2 ^ (32 - s)) % M32

/-- md5 round function F. -/
def mdF (x y z : Nat) : Nat := (x &&& y) ||| (not32 x &&& z)

/-- md5 round function G. -/
def mdG (x y z : Nat) : Nat := (x &&& z) ||| (y &&& not32 z)

/-- md5 round function H. -/
def mdH (x y z : Nat) : Nat := x ^^^ y ^^^ z

/-- md5 round function I. -/
def mdI (x y z : Nat) : Nat := y ^^^ (x ||| not32 z)

/-- The 64 md5 sine constants. -/
def md5K : List Nat :=
  [0xd76aa478, 0xe8c7b756, 0x242070db, 0xc1bdceee,
   0xf57c0faf, 0x4787c62a, 0xa8304613, 0xfd469501,
   0x698098d8, 0x8b44f7af, 0xffff5bb1, 0x895cd7be,
   0x6b901122, 0xfd987193, 0xa679438e, 0x49b40821,
   0xf61e2562, 0xc040b340, 0x265e5a51, 0xe9b6c7aa,
   0xd62f105d, 0x02441453, 0xd8a1e681, 0xe7d3fbc8,
   0x21e1cde6, 0xc33707d6, 0xf4d50d87, 0x455a14ed,
   0xa9e3e905, 0xfcefa3f8, 0x676f02d9, 0x8d2a4c8a,
   0xfffa3942, 0x8771f681, 0x6d9d6122, 0xfde5380c,
   0xa4beea44, 0x4bdecfa9, 0xf6bb4b60, 0xbebfbc70,
   0x289b7ec6, 0xeaa127fa, 0xd4ef3085, 0x04881d05,
   0xd9d4d039, 0xe6db99e5, 0x1fa27cf8, 0xc4ac5665,
   0xf4292244, 0x432aff97, 0xab9423a7, 0xfc93a039,
   0x655b59c3, 0x8f0ccc92, 0xffeff47d, 0x85845dd1,
   0x6fa87e4f, 0xfe2ce6e0, 0xa3014314, 0x4e0811a1,
   0xf7537e82, 0xbd3af235, 0x2ad7d2bb, 0xeb86d391]

/-- The 64 md5 per-step rotation amounts. -/
def md5S : List Nat :=
  [7, 12, 17, 22, 7, 12, 17, 22, 7, 12, 17, 22, 7, 12, 17, 22,
   5, 9, 14, 20, 5, 9, 14, 20, 5, 9, 14, 20, 5, 9, 14, 20,
   4, 11, 16, 23, 4, 11, 16, 23, 4, 11, 16, 23, 4, 11, 16, 23,
   6, 10, 15, 21, 6, 10, 15, 21, 6, 10, 15, 21, 6, 10, 15, 21]

/-- The four md5 chaining words. -/
structure MD5State where
  a : Nat
  b : Nat
  c : Nat
  d : Nat

/-- One of the 64 md5 steps on a 16-word message block `M`. -/
def md5Step (M : List Nat) (st : MD5State) (i : Nat) : MD5State :=
  let f :=
    if i < 16 then mdF st.b st.c st.d
    else if i < 32 then mdG st.b st.c st.d
    else if i < 48 then mdH st.b st.c st.d
    else mdI st.b st.c st.d
  let g :=
    if i < 16 then i
    else if i < 32 then (5 * i + 1) % 16
    else if i < 48 then (3 * i + 5) % 16
    else (7 * i) % 16
  let t := (f + st.a + md5K.getD i 0 + M.getD g 0) % M32
  { a := st.d, b := (st.b + rotl32 t (md5S.getD i 0)) % M32, c := st.b, d := st.c }

/-- The 16 little-endian words of a 64-byte block. -/
def md5Words (block : List Nat) : List Nat :=
  (List.range 16).map fun j =>
    block.getD (4 * j) 0 + 256 * block.getD (4 * j + 1) 0 +
      65536 * block.getD (4 * j + 2) 0 + 16777216 * block.getD (4 * j + 3) 0

/-- Process one 64-byte block: run the 64 steps, then add the chaining
words back in. -/
def md5Block (st : MD5State) (block : List Nat) : MD5State :=
  let r := (List.range 64).foldl (md5Step (md5Words block)) st
  { a := (st.a + r.a) % M32, b := (st.b + r.b) % M32,
    c := (st.c + r.c) % M32, d := (st.d + r.d) % M32 }

/-- Process a padded message (whose length is a multiple of 64), one
64-byte block after the other. -/
def md5Blocks (st : MD5State) (bytes : List Nat) : MD5State :=
  (List.range (bytes.length / 64)).foldl
    (fun s i => md5Block s ((bytes.drop (64 * i)).take 64)) st

/-- md5 padding: append `0x80`, zeros up to 56 mod 64, then the bit length
as eight little-endian bytes. -/
def md5Pad (msg : List Nat) : List Nat :=
  let len := msg.length
  let zeros := (64 + 56 - (len + 1) % 64) % 64
  msg ++ [128] ++ List.replicate zeros 0 ++
    (List.range 8).map (fun i => len * 8 / 2 ^ (8 * i) % 256)

/-- The four little-endian bytes of a 32-bit word. -/
def wordLE (w : Nat) : List Nat :=
  [w % 256, w / 256 % 256, w / 65536 % 256, w / 16777216 % 256]

/-- The 16 digest bytes of md5 applied to a byte string. -/
def md5Bytes (msg : List Nat) : List Nat :=
  let st := md5Blocks ⟨0x67452301, 0xefcdab89, 0x98badcfe, 0x10325476⟩ (md5Pad msg)
  wordLE st.a ++ wordLE st.b ++ wordLE st.c ++ wordLE st.d

/-- The 32 hex digits of the digest, in the order of the usual hex
rendering (high nibble of each byte first). -/
def md5Nibbles (msg : List Nat) : List Nat :=
  ((md5Bytes msg).map (fun b => [b / 16, b % 16])).flatten

/-- Value of a hex-digit string read most-significant-first. -/
def hexVal (ds : List Nat) : Nat := ds.foldl (fun acc d => 16 * acc + d) 0

/-- The byte string of an ASCII string (all identifiers involved are
ASCII, where UTF-8 bytes and code points coincide). -/
def strBytes (s : String) : List Nat := s.data.map Char.toNat

/-- The lock key of `allocate_points_with_history`:
`('x' || substr(md5(uid || sub), 1, 15))::bit(60)::bigint`, that is the
first fifteen hex digits of the digest of the concatenation, read as a
number. -/
def lockKeyOf (uid sub : String) : Nat :=
  hexVal (List.take 15 (md5Nibbles (strBytes (uid ++ sub))))

/-!
`allocate_points_with_history` (final migration).  `locks` is the set of
advisory locks held by other sessions; `pg_advisory_lock` pushes the key,
`pg_advisory_unlock` removes it.  `failWrite = true` makes the
`INSERT INTO payment_history` raise; the surrounding `BEGIN ... EXCEPTION`
block then rolls its changes back, and the `WHEN OTHERS` handler releases
the lock and re-raises.
-/

/-- The body of `allocate_points_with_history`. -/
def allocate_points_with_history (failWrite : Bool) (locks : List Nat) (db : DB)
    (target_user_id : String) (points_to_add : Int) (subscription_id : String)
    (plan_amount : Int) : AllocOutcome :=
  let lock_key := lockKeyOf target_user_id subscription_id
  let held := lock_key :: locks
  let existing_count := existingAllocationCount db target_user_id subscription_id
  if existing_count > 0 then
    { locks := held.erase lock_key, db := db, ret := .ok false }
  else
    let db1 := ensureUserPoints db target_user_id
    let current_opt := (db1.user_points target_user_id).map (fun r => r.points_remaining)
    let current_points : Int :=
      match current_opt with
      | none => 50
      | some c => c
    let new_total := current_points + points_to_add
    let db2 := updateUserPoints db1 target_user_id new_total
    if failWrite then
      { locks := held.erase lock_key, db := db, ret := .error }
    else
      let db3 := insertPaymentHistory db2
        ⟨target_user_id, subscription_id, "atomic_allocation", some plan_amount, some "USD"⟩
      { locks := held.erase lock_key, db := db3, ret := .ok true }

/-- One non-failing call of the allocator with no foreign locks held:
the new database state and the returned boolean. -/
def credit (db : DB) (uid : String) (pts : Int) (sub : String) (amt : Int) :
    DB × Bool :=
  let o := allocate_points_with_history false [] db uid pts sub amt
  (o.db, o.ret == .ok true)

/-- Runs `n` sequential calls of `credit` with the same arguments; returns the
final state and the list of returned booleans in call order. -/
def creditN : Nat → DB → String → Int → String → Int → DB × List Bool
  | 0, db, _, _, _, _ => (db, [])
  | n + 1, db, uid, pts, sub, amt =>
      let p := credit db uid pts sub amt
      let rest := creditN n p.1 uid pts sub amt
      (rest.1, p.2 :: rest.2)

/-- Embeds `add_points_to_user` in its final form (`GREATEST` on `points_total`):
returns the new state and the returned `new_total`. -/
def add_points_to_user (db : DB) (target_user_id : String) (points_to_add : Int) :
    DB × Int :=
  let db1 := ensureUserPoints db target_user_id
  let current_points : Int :=
    match (db1.user_points target_user_id).map (fun r => r.points_remaining) with
    | none => 50
    | some c => c
  let new_total := current_points + points_to_add
  (updateUserPoints db1 target_user_id new_total, new_total)

/-!
The webhook receiver of `supabase/functions/paypal-webhook/index.ts`.
Console output is modelled as a list of tagged entries (the source uses
only `console.log` and `console.error`; `console.warn` exists in the
platform but is never called).  Supabase query errors other than the
allocation RPC are not injected: the claims under scrutiny concern the
RPC failure path, controlled by the `rpcFails` flag.
-/

/-- A console log level. -/
inductive LogLevel where
  | log
  | error
  | warn
  deriving DecidableEq

/-- A console entry. -/
structure LogEntry where
  level : LogLevel
  message : String
  deriving DecidableEq

/-- Handler state: the database plus the console output so far. -/
structure St where
  db : DB
  log : List LogEntry

/-- Appends a `console.log` entry. -/
def logI (s : St) (m : String) : St := { s with log := s.log ++ [⟨.log, m⟩] }

/-- Appends a `console.error` entry. -/
def logE (s : St) (m : String) : St := { s with log := s.log ++ [⟨.error, m⟩] }

/-- The `resource` object of a PayPal webhook event (the fields the
handlers read). -/
structure Resource where
  id : String
  subscriber_email : Option String
  plan_id : Option String
  deriving DecidableEq

/-- A PayPal webhook event. -/
structure WebhookEvent where
  id : String
  event_type : String
  resource : Resource
  deriving DecidableEq

/-- The `planMapping` table of `handleSubscriptionCreated`; an absent or
unknown plan id falls through `|| 'free'`. -/
def planMapping (plan_id : Option String) : String :=
  match plan_id with
  | some "P-5ML4271244454362WXNWU5NQ" => "pro"
  | some "P-1GJ4899448696344MXNWU5NQ" => "business"
  | some "P-2RT4271244454362WXNWU5NQ" => "enterprise"
  | _ => "free"

/-- The `pointsAllocation` table of `allocatePointsForSubscription`; an
unknown plan type falls through `|| 50`. -/
def pointsAllocation (plan_type : String) : Int :=
  if plan_type = "free" then 50
  else if plan_type = "pro" then 1250
  else if plan_type = "business" then 3500
  else if plan_type = "enterprise" then 10000
  else 50

/-- Embeds `getAmountForPlan`; an unknown plan type falls through `|| 0`. -/
def getAmountForPlan (plan_type : String) : Int :=
  if plan_type = "free" then 0
  else if plan_type = "pro" then 29
  else if plan_type = "business" then 79
  else if plan_type = "enterprise" then 199
  else 0

/-- The `.upsert(...)` of `handleSubscriptionCreated`, keyed by the
unique `paypal_subscription_id`. -/
def upsertSubscription (db : DB) (subId : String) (row : SubRow) : DB :=
  { db with user_subscriptions := fun s =>
      if s = subId then some row else db.user_subscriptions s }

/-- The `.update({ status: ... }).eq('paypal_subscription_id', subId)` of
the lifecycle handlers; no matching row means no change. -/
def updateSubscriptionStatus (db : DB) (subId newStatus : String) : DB :=
  match db.user_subscriptions subId with
  | none => db
  | some r =>
      { db with user_subscriptions := fun s =>
          if s = subId then some { r with status := newStatus }
          else db.user_subscriptions s }

/-- Embeds `handleSubscriptionCreated`. -/
def handleSubscriptionCreated (s : St) (event : WebhookEvent) : St :=
  let s := logI s "Processing subscription created event"
  match event.resource.subscriber_email with
  | none => logE s "No email found in subscription created event"
  | some email =>
    match s.db.user_profiles email with
    | none => logE s "User not found for email:"
    | some userId =>
      let planType := planMapping event.resource.plan_id
      { s with db := (upsertSubscription s.db event.resource.id
          ⟨userId, planType, "created"⟩) }

/-- Embeds `allocatePointsForSubscription`: looks the subscription up, picks the
point amount for its plan, and calls the `allocate_points_with_history`
RPC.  A transaction error is logged and swallowed (the function returns
normally). -/
def allocatePointsForSubscription (rpcFails : Bool) (s : St)
    (paypalSubscriptionId : String) : St :=
  let s := logI s "Starting points allocation for subscription:"
  match s.db.user_subscriptions paypalSubscriptionId with
  | none => logE s "Subscription not found for points allocation:"
  | some sub =>
    let s := logI s "Found subscription for user:"
    let points := pointsAllocation sub.plan_type
    let o := allocate_points_with_history rpcFails [] s.db sub.user_id points
      paypalSubscriptionId (getAmountForPlan sub.plan_type)
    match o.ret with
    | .error => logE { s with db := o.db } "Error in points allocation transaction:"
    | .ok true => logI { s with db := o.db } "Successfully allocated points to user"
    | .ok false =>
        logI { s with db := o.db }
          "Points already allocated for subscription - duplicate prevented"

/-- Embeds `handleSubscriptionActivated`: set the status to `active`, then
allocate points. -/
def handleSubscriptionActivated (rpcFails : Bool) (s : St) (event : WebhookEvent) : St :=
  let s := logI s "Processing subscription activated event"
  let s := { s with db := updateSubscriptionStatus s.db event.resource.id "active" }
  allocatePointsForSubscription rpcFails s event.resource.id

/-- Embeds `handlePaymentCompleted`: allocate points for the billing cycle, then
log a `payment_completed` row in `payment_history`. -/
def handlePaymentCompleted (rpcFails : Bool) (s : St) (event : WebhookEvent) : St :=
  let s := logI s "Processing payment completed event"
  match s.db.user_subscriptions event.resource.id with
  | none => logE s "Subscription not found for payment:"
  | some sub =>
    let s := allocatePointsForSubscription rpcFails s event.resource.id
    { s with db := (insertPaymentHistory s.db
        ⟨sub.user_id, event.resource.id, "payment_completed",
         some (getAmountForPlan sub.plan_type), some "USD"⟩) }

/-- Embeds `handleSubscriptionCancelled`. -/
def handleSubscriptionCancelled (s : St) (event : WebhookEvent) : St :=
  let s := logI s "Processing subscription cancelled event"
  { s with db := updateSubscriptionStatus s.db event.resource.id "cancelled" }

/-- Embeds `handleSubscriptionSuspended`. -/
def handleSubscriptionSuspended (s : St) (event : WebhookEvent) : St :=
  let s := logI s "Processing subscription suspended event"
  { s with db := updateSubscriptionStatus s.db event.resource.id "suspended" }

/-- Embeds `handlePaymentFailed`: record a `payment_failed` history row (no
amount, no currency); no status transition, no ledger credit. -/
def handlePaymentFailed (s : St) (event : WebhookEvent) : St :=
  let s := logI s "Processing payment failed event"
  match s.db.user_subscriptions event.resource.id with
  | none => logE s "Subscription not found for failed payment:"
  | some sub =>
    { s with db := (insertPaymentHistory s.db
        ⟨sub.user_id, event.resource.id, "payment_failed", none, none⟩) }

/-- The `switch` of the `Deno.serve` handler. -/
def processEvent (rpcFails : Bool) (s : St) (event : WebhookEvent) : St :=
  let s := logI s "PayPal Webhook Event:"
  match event.event_type with
  | "BILLING.SUBSCRIPTION.CREATED" => handleSubscriptionCreated s event
  | "BILLING.SUBSCRIPTION.ACTIVATED" => handleSubscriptionActivated rpcFails s event
  | "PAYMENT.SALE.COMPLETED" => handlePaymentCompleted rpcFails s event
  | "BILLING.SUBSCRIPTION.CANCELLED" => handleSubscriptionCancelled s event
  | "BILLING.SUBSCRIPTION.SUSPENDED" => handleSubscriptionSuspended s event
  | "BILLING.SUBSCRIPTION.PAYMENT.FAILED" => handlePaymentFailed s event
  | _ => logI s "Unhandled event type:"

/-- A sequence of webhook deliveries processed one after the other. -/
def processEvents (rpcFails : Bool) (s : St) (events : List WebhookEvent) : St :=
  events.foldl (processEvent rpcFails) s

/-- An HTTP response, reduced to its status code. -/
structure HttpResponse where
  status : Nat
  deriving DecidableEq

/-- The `Deno.serve` wrapper: `none` stands for a request body that fails
to parse (`req.json()` throws, the catch answers 500); every parsed event
is dispatched and answered 200. -/
def serveWebhook (rpcFails : Bool) (s : St) (payload : Option WebhookEvent) :
    St × HttpResponse :=
  match payload with
  | none => (logE s "Error processing PayPal webhook:", ⟨500⟩)
  | some event => (processEvent rpcFails s event, ⟨200⟩)

/-- Number of `atomic_allocation` rows of a `(user_id, subscription_id)`
pair: the rows written by the atomic allocator itself. -/
def atomicAllocationCount (db : DB) (uid sub : String) : Nat :=
  (db.payment_history.filter (fun r =>
    r.user_id == uid && r.paypal_subscription_id == sub &&
      r.event_type == "atomic_allocation")).length

/-- One abstract credit operation: a call of the atomic allocator or of
`add_points_to_user`. -/
inductive CreditOp where
  | alloc (uid : String) (pts : Int) (sub : String) (amt : Int)
  | add (uid : String) (pts : Int)

/-- The point amount an operation credits. -/
def opPoints : CreditOp → Int
  | .alloc _ p _ _ => p
  | .add _ p => p

/-- Apply one credit operation to the database. -/
def applyOp (db : DB) : CreditOp → DB
  | .alloc u p s a => (allocate_points_with_history false [] db u p s a).db
  | .add u p => (add_points_to_user db u p).1

/-- Apply a sequence of credit operations. -/
def applyOps (db : DB) (ops : List CreditOp) : DB := ops.foldl applyOp db

/-!
Fixtures used by the closed witness and counterexample theorems below.
-/

/-- A database with one user `U1` (balance 100, high-water mark 200, so
the balance has been consumed below the total), a `pro` subscription `S1`
of `U1`, and an empty payment history. -/
def dbA : DB :=
  { user_points := fun u => if u = "U1" then some ⟨100, 200⟩ else none,
    payment_history := [],
    user_subscriptions := fun s => if s = "S1" then some ⟨"U1", "pro", "created"⟩ else none,
    user_profiles := fun e => if e = "a@b.c" then some "U1" else none }

/-- Like `dbA` but the subscription `S1` is already `cancelled`. -/
def dbB : DB :=
  { dbA with user_subscriptions := fun s =>
      if s = "S1" then some ⟨"U1", "pro", "cancelled"⟩ else none }

/-- Like `dbA` but with no subscription rows at all. -/
def dbN : DB := { dbA with user_subscriptions := fun _ => none }

/-- A `PAYMENT.SALE.COMPLETED` delivery for subscription `S1`. -/
def evPay : WebhookEvent := ⟨"WH-1", "PAYMENT.SALE.COMPLETED", ⟨"S1", none, none⟩⟩

/-- A `BILLING.SUBSCRIPTION.ACTIVATED` delivery for subscription `S1`. -/
def evAct : WebhookEvent := ⟨"WH-2", "BILLING.SUBSCRIPTION.ACTIVATED", ⟨"S1", none, none⟩⟩

/-- A `BILLING.SUBSCRIPTION.CREATED` delivery for a fresh subscription
`S9` of `a@b.c`, with a plan id missing from the plan catalog. -/
def evCreate9 : WebhookEvent :=
  ⟨"WH-3", "BILLING.SUBSCRIPTION.CREATED", ⟨"S9", some "a@b.c", some "P-UNKNOWN"⟩⟩

/-- A `BILLING.SUBSCRIPTION.ACTIVATED` delivery for `S9`. -/
def evAct9 : WebhookEvent := ⟨"WH-4", "BILLING.SUBSCRIPTION.ACTIVATED", ⟨"S9", none, none⟩⟩

/-!
Helper lemmas: which table each embedded operation touches.
-/

theorem ensureUserPoints_history (db : DB) (u : String) :
    (ensureUserPoints db u).payment_history = db.payment_history := by
  unfold ensureUserPoints; split <;> rfl

theorem ensureUserPoints_subs (db : DB) (u : String) :
    (ensureUserPoints db u).user_subscriptions = db.user_subscriptions := by
  unfold ensureUserPoints; split <;> rfl

theorem updateUserPoints_history (db : DB) (u : String) (v : Int) :
    (updateUserPoints db u v).payment_history = db.payment_history := by
  unfold updateUserPoints; split <;> rfl

theorem updateUserPoints_subs (db : DB) (u : String) (v : Int) :
    (updateUserPoints db u v).user_subscriptions = db.user_subscriptions := by
  unfold updateUserPoints; split <;> rfl

theorem insertPaymentHistory_points (db : DB) (row : HistoryRow) :
    (insertPaymentHistory db row).user_points = db.user_points := rfl

theorem insertPaymentHistory_subs (db : DB) (row : HistoryRow) :
    (insertPaymentHistory db row).user_subscriptions = db.user_subscriptions := rfl

theorem insertPaymentHistory_history (db : DB) (row : HistoryRow) :
    (insertPaymentHistory db row).payment_history = db.payment_history ++ [row] := rfl

theorem ensureUserPoints_of_some (db : DB) (u : String) (r : PointsRow)
    (h : db.user_points u = some r) : ensureUserPoints db u = db := by
  unfold ensureUserPoints; rw [h]

theorem ensureUserPoints_isSome (db : DB) (u : String) :
    ((ensureUserPoints db u).user_points u).isSome := by
  unfold ensureUserPoints
  cases h : db.user_points u with
  | some r => simp [h]
  | none => simp

theorem ensureUserPoints_other (db : DB) (u u' : String) (h : u' ≠ u) :
    (ensureUserPoints db u).user_points u' = db.user_points u' := by
  unfold ensureUserPoints
  cases db.user_points u with
  | some r => rfl
  | none => simp [h]

theorem updateUserPoints_of_some (db : DB) (u : String) (v : Int) (r : PointsRow)
    (h : db.user_points u = some r) (u' : String) :
    (updateUserPoints db u v).user_points u' =
      if u' = u then some ⟨v, max r.points_total v⟩ else db.user_points u' := by
  unfold updateUserPoints; rw [h]

theorem updateUserPoints_other (db : DB) (u u' : String) (v : Int) (h : u' ≠ u) :
    (updateUserPoints db u v).user_points u' = db.user_points u' := by
  unfold updateUserPoints
  cases db.user_points u with
  | some r => simp [h]
  | none => rfl

/-!
Helper lemmas about the duplicate-check count.
-/

theorem isAllocationRow_atomic (u s : String) (a : Option Int) (c : Option String) :
    isAllocationRow u s ⟨u, s, "atomic_allocation", a, c⟩ = true := by
  simp [isAllocationRow, allocationEventTypes]

theorem isAllocationRow_other_sub (u' s' u s : String) (t : String) (a : Option Int)
    (c : Option String) (h : s' ≠ s) :
    isAllocationRow u' s' ⟨u, s, t, a, c⟩ = false := by
  have hs : (s == s') = false := beq_eq_false_iff_ne.mpr (Ne.symm h)
  simp [isAllocationRow, hs]

theorem existingAllocationCount_insert (db : DB) (row : HistoryRow) (u s : String) :
    existingAllocationCount (insertPaymentHistory db row) u s =
      existingAllocationCount db u s + (if isAllocationRow u s row then 1 else 0) := by
  simp only [existingAllocationCount, insertPaymentHistory_history, List.filter_append,
    List.length_append]
  cases h : isAllocationRow u s row <;> simp [h]

theorem existingAllocationCount_ensure (db : DB) (u0 u s : String) :
    existingAllocationCount (ensureUserPoints db u0) u s = existingAllocationCount db u s := by
  simp only [existingAllocationCount, ensureUserPoints_history]

theorem existingAllocationCount_update (db : DB) (u0 : String) (v : Int) (u s : String) :
    existingAllocationCount (updateUserPoints db u0 v) u s = existingAllocationCount db u s := by
  simp only [existingAllocationCount, updateUserPoints_history]

theorem atomicAllocationCount_le (db : DB) (u s : String) :
    atomicAllocationCount db u s ≤ existingAllocationCount db u s := by
  refine (List.monotone_filter_right db.payment_history ?_).length_le
  intro r hr
  simp only [Bool.and_eq_true, beq_iff_eq] at hr
  simp only [isAllocationRow, Bool.and_eq_true, beq_iff_eq]
  exact ⟨⟨hr.1.1, hr.1.2⟩, by rw [hr.2]; decide⟩

theorem atomicAllocationCount_insert (db : DB) (row : HistoryRow) (u s : String) :
    atomicAllocationCount (insertPaymentHistory db row) u s =
      atomicAllocationCount db u s +
        (if row.user_id == u && row.paypal_subscription_id == s &&
            row.event_type == "atomic_allocation" then 1 else 0) := by
  simp only [atomicAllocationCount, insertPaymentHistory_history, List.filter_append,
    List.length_append]
  cases h : (row.user_id == u && row.paypal_subscription_id == s &&
      row.event_type == "atomic_allocation") <;> simp [h]

/-!
Shape lemmas for `allocate_points_with_history`.
-/

theorem alloc_locks (f : Bool) (L : List Nat) (db : DB) (u : String) (p : Int)
    (s : String) (a : Int) :
    (allocate_points_with_history f L db u p s a).locks = L := by
  simp only [allocate_points_with_history]
  split
  · exact List.erase_cons_head ..
  · split
    · exact List.erase_cons_head ..
    · exact List.erase_cons_head ..

theorem alloc_dup (f : Bool) (L : List Nat) (db : DB) (u : String) (p : Int)
    (s : String) (a : Int) (h : 0 < existingAllocationCount db u s) :
    allocate_points_with_history f L db u p s a =
      ⟨L, db, .ok false⟩ := by
  simp [allocate_points_with_history, h, List.erase_cons_head]

theorem alloc_fail (L : List Nat) (db : DB) (u : String) (p : Int) (s : String)
    (a : Int) (h : existingAllocationCount db u s = 0) :
    allocate_points_with_history true L db u p s a = ⟨L, db, .error⟩ := by
  simp [allocate_points_with_history, h, List.erase_cons_head]

theorem alloc_fresh (L : List Nat) (db : DB) (u : String) (p : Int) (s : String)
    (a : Int) (r : PointsRow) (h : existingAllocationCount db u s = 0)
    (hr : db.user_points u = some r) :
    allocate_points_with_history false L db u p s a =
      ⟨L, insertPaymentHistory (updateUserPoints db u (r.points_remaining + p))
            ⟨u, s, "atomic_allocation", some a, some "USD"⟩, .ok true⟩ := by
  simp [allocate_points_with_history, h, ensureUserPoints_of_some db u r hr, hr,
    List.erase_cons_head]

theorem alloc_fresh_db (L : List Nat) (db : DB) (u : String) (p : Int) (s : String)
    (a : Int) (h : existingAllocationCount db u s = 0) :
    ∃ r0 : PointsRow, (ensureUserPoints db u).user_points u = some r0 ∧
      allocate_points_with_history false L db u p s a =
        ⟨L, insertPaymentHistory
              (updateUserPoints (ensureUserPoints db u) u (r0.points_remaining + p))
              ⟨u, s, "atomic_allocation", some a, some "USD"⟩, .ok true⟩ := by
  obtain ⟨r0, hr0⟩ := Option.isSome_iff_exists.mp (ensureUserPoints_isSome db u)
  refine ⟨r0, hr0, ?_⟩
  simp [allocate_points_with_history, h, hr0, List.erase_cons_head]

/-!
Lemmas about single `credit` calls.
-/

theorem credit_dup (db : DB) (u : String) (p : Int) (s : String) (a : Int)
    (h : 0 < existingAllocationCount db u s) : credit db u p s a = (db, false) := by
  simp [credit, alloc_dup false [] db u p s a h]

theorem credit_fresh (db : DB) (u : String) (p : Int) (s : String) (a : Int)
    (r : PointsRow) (h : existingAllocationCount db u s = 0)
    (hr : db.user_points u = some r) :
    credit db u p s a =
      (insertPaymentHistory (updateUserPoints db u (r.points_remaining + p))
        ⟨u, s, "atomic_allocation", some a, some "USD"⟩, true) := by
  simp [credit, alloc_fresh [] db u p s a r h hr]

theorem credit_fresh_points (db : DB) (u : String) (p : Int) (s : String) (a : Int)
    (r : PointsRow) (h : existingAllocationCount db u s = 0)
    (hr : db.user_points u = some r) :
    (credit db u p s a).1.user_points u =
      some ⟨r.points_remaining + p, max r.points_total (r.points_remaining + p)⟩ := by
  rw [credit_fresh db u p s a r h hr]
  show (updateUserPoints db u (r.points_remaining + p)).user_points u = _
  rw [updateUserPoints_of_some db u _ r hr u]
  simp

theorem credit_fresh_history (db : DB) (u : String) (p : Int) (s : String) (a : Int)
    (r : PointsRow) (h : existingAllocationCount db u s = 0)
    (hr : db.user_points u = some r) :
    (credit db u p s a).1.payment_history =
      db.payment_history ++ [⟨u, s, "atomic_allocation", some a, some "USD"⟩] := by
  rw [credit_fresh db u p s a r h hr]
  show (updateUserPoints db u (r.points_remaining + p)).payment_history ++ _ = _
  rw [updateUserPoints_history]

theorem credit_fresh_count (db : DB) (u : String) (p : Int) (s : String) (a : Int)
    (r : PointsRow) (h : existingAllocationCount db u s = 0)
    (hr : db.user_points u = some r) :
    existingAllocationCount (credit db u p s a).1 u s = 1 := by
  rw [credit_fresh db u p s a r h hr]
  show existingAllocationCount (insertPaymentHistory _ _) u s = 1
  rw [existingAllocationCount_insert, existingAllocationCount_update, h,
    isAllocationRow_atomic]
  rfl

theorem credit_count_other_sub (db : DB) (u : String) (p : Int) (s : String) (a : Int)
    (u' s' : String) (hs : s' ≠ s) :
    existingAllocationCount (credit db u p s a).1 u' s' =
      existingAllocationCount db u' s' := by
  rcases Nat.eq_zero_or_pos (existingAllocationCount db u s) with h | h
  · obtain ⟨r0, _, he⟩ := alloc_fresh_db [] db u p s a h
    simp only [credit]
    rw [he]
    show existingAllocationCount (insertPaymentHistory _ _) u' s' = _
    rw [existingAllocationCount_insert, existingAllocationCount_update,
      existingAllocationCount_ensure, isAllocationRow_other_sub u' s' u s _ _ _ hs]
    rfl
  · rw [credit_dup db u p s a h]

theorem creditN_dup (n : Nat) (db : DB) (u : String) (p : Int) (s : String) (a : Int)
    (h : 0 < existingAllocationCount db u s) :
    creditN n db u p s a = (db, List.replicate n false) := by
  induction n with
  | zero => simp [creditN]
  | succ m ih => simp [creditN, credit_dup db u p s a h, ih, List.replicate_succ]

/-- Claim C1: starting from a state with no allocation record for the pair
`(u, s)` and an existing balance row `r`, `n ≥ 1` sequential calls of the
credit operation return `true` once (the first call) and `false` for every
later call, leave exactly one counts-as-allocation record for the pair,
and leave `points_remaining` equal to its old value plus exactly one
`p`. -/
theorem creditN_idempotent (n : Nat) (db : DB) (u s : String) (p a : Int) (r : PointsRow)
    (hn : 0 < n) (_hp : 0 < p) (hr : db.user_points u = some r)
    (hc : existingAllocationCount db u s = 0) :
    (creditN n db u p s a).2 = true :: List.replicate (n - 1) false ∧
    (creditN n db u p s a).1.user_points u =
      some ⟨r.points_remaining + p, max r.points_total (r.points_remaining + p)⟩ ∧
    existingAllocationCount (creditN n db u p s a).1 u s = 1 := by
  obtain ⟨m, rfl⟩ : ∃ m, n = m + 1 := ⟨n - 1, by omega⟩
  have hcount := credit_fresh_count db u p s a r hc hr
  have hdup := creditN_dup m (credit db u p s a).1 u p s a (by rw [hcount]; exact Nat.one_pos)
  refine ⟨?_, ?_, ?_⟩ <;> simp only [creditN, hdup, Nat.add_sub_cancel]
  · simp [credit_fresh db u p s a r hc hr]
  · exact credit_fresh_points db u p s a r hc hr
  · exact hcount

/-- Claim C4: two sequential credits for the same user under distinct
subscription ids both succeed, leave one allocation record per pair, and
leave `points_remaining` increased by the sum of both amounts; the
duplicate check never suppresses a pair with no prior record. -/
theorem credit_isolated_keys (db : DB) (u s1 s2 : String) (p1 p2 a1 a2 : Int)
    (r : PointsRow) (hs : s1 ≠ s2) (_hp1 : 0 < p1) (_hp2 : 0 < p2)
    (hr : db.user_points u = some r)
    (h1 : existingAllocationCount db u s1 = 0)
    (h2 : existingAllocationCount db u s2 = 0) :
    (credit db u p1 s1 a1).2 = true ∧
    (credit (credit db u p1 s1 a1).1 u p2 s2 a2).2 = true ∧
    (∃ t : Int, (credit (credit db u p1 s1 a1).1 u p2 s2 a2).1.user_points u =
      some ⟨r.points_remaining + p1 + p2, t⟩) ∧
    existingAllocationCount (credit (credit db u p1 s1 a1).1 u p2 s2 a2).1 u s1 = 1 ∧
    existingAllocationCount (credit (credit db u p1 s1 a1).1 u p2 s2 a2).1 u s2 = 1 := by
  have hr1 := credit_fresh_points db u p1 s1 a1 r h1 hr
  have h2' : existingAllocationCount (credit db u p1 s1 a1).1 u s2 = 0 := by
    rw [credit_count_other_sub db u p1 s1 a1 u s2 (Ne.symm hs)]
    exact h2
  refine ⟨?_, ?_, ?_, ?_, ?_⟩
  · simp [credit_fresh db u p1 s1 a1 r h1 hr]
  · simp [credit_fresh (credit db u p1 s1 a1).1 u p2 s2 a2 _ h2' hr1]
  · refine ⟨max (max r.points_total (r.points_remaining + p1))
      (r.points_remaining + p1 + p2), ?_⟩
    rw [credit_fresh_points (credit db u p1 s1 a1).1 u p2 s2 a2 _ h2' hr1]
  · rw [credit_count_other_sub (credit db u p1 s1 a1).1 u p2 s2 a2 u s1 hs]
    exact credit_fresh_count db u p1 s1 a1 r h1 hr
  · exact credit_fresh_count (credit db u p1 s1 a1).1 u p2 s2 a2 _ h2' hr1

/-- Claim C3: the advisory lock is released on every exit path of
`allocate_points_with_history` (duplicate, success, and raised error); a
call whose history write fails leaves the database unchanged and
propagates the error, and the retry with the same key then sees no
allocation record, returns `true`, and allocates exactly once. -/
theorem lock_released_and_retry_succeeds (locks : List Nat) (db : DB) (u s : String)
    (p a : Int) (r : PointsRow)
    (hr : db.user_points u = some r) (hc : existingAllocationCount db u s = 0) :
    (∀ (f : Bool) (L : List Nat) (d : DB) (u' : String) (p' : Int) (s' : String) (a' : Int),
      (allocate_points_with_history f L d u' p' s' a').locks = L) ∧
    (allocate_points_with_history true locks db u p s a).db = db ∧
    (allocate_points_with_history true locks db u p s a).ret = .error ∧
    (allocate_points_with_history false locks db u p s a).ret = .ok true ∧
    (allocate_points_with_history false locks db u p s a).db.user_points u =
      some ⟨r.points_remaining + p, max r.points_total (r.points_remaining + p)⟩ ∧
    existingAllocationCount (allocate_points_with_history false locks db u p s a).db u s
      = 1 := by
  have hfail := alloc_fail locks db u p s a hc
  have hfresh := alloc_fresh locks db u p s a r hc hr
  refine ⟨alloc_locks, ?_, ?_, ?_, ?_, ?_⟩
  · rw [hfail]
  · rw [hfail]
  · rw [hfresh]
  · rw [hfresh]
    show (insertPaymentHistory _ _).user_points u = _
    rw [insertPaymentHistory_points, updateUserPoints_of_some db u _ r hr u]
    simp
  · rw [hfresh]
    show existingAllocationCount (insertPaymentHistory _ _) u s = 1
    rw [existingAllocationCount_insert, existingAllocationCount_update, hc,
      isAllocationRow_atomic]
    rfl

/-!
Monotonicity of `points_total` under credits.
-/

theorem ensure_update_total_mono (db : DB) (u0 : String) (v : Int) (u : String)
    (r : PointsRow) (hr : db.user_points u = some r) :
    ∃ r' : PointsRow,
      (updateUserPoints (ensureUserPoints db u0) u0 v).user_points u = some r' ∧
      r.points_total ≤ r'.points_total := by
  by_cases hu : u = u0
  · subst hu
    rw [ensureUserPoints_of_some db u r hr]
    refine ⟨⟨v, max r.points_total v⟩, ?_, le_max_left _ _⟩
    rw [updateUserPoints_of_some db u v r hr u]
    simp
  · refine ⟨r, ?_, le_refl _⟩
    rw [updateUserPoints_other _ u0 u v hu, ensureUserPoints_other db u0 u hu]
    exact hr

theorem applyOp_total_mono (op : CreditOp) (db : DB) (u : String) (r : PointsRow)
    (hr : db.user_points u = some r) :
    ∃ r', (applyOp db op).user_points u = some r' ∧
      r.points_total ≤ r'.points_total := by
  cases op with
  | add u0 p =>
      simp only [applyOp, add_points_to_user]
      exact ensure_update_total_mono db u0 _ u r hr
  | alloc u0 p s0 a0 =>
      rcases Nat.eq_zero_or_pos (existingAllocationCount db u0 s0) with h | h
      · obtain ⟨r0, _, he⟩ := alloc_fresh_db [] db u0 p s0 a0 h
        simp only [applyOp]
        rw [he]
        show ∃ r', (insertPaymentHistory _ _).user_points u = some r' ∧ _
        simp only [insertPaymentHistory_points]
        exact ensure_update_total_mono db u0 _ u r hr
      · simp only [applyOp, alloc_dup false [] db u0 p s0 a0 h]
        exact ⟨r, hr, le_refl _⟩

/-- Claim C7: across any sequence of credit operations (atomic
allocations and `add_points_to_user` calls, all with positive point
amounts), `points_total` never decreases, also when `points_remaining`
starts below `points_total`. -/
theorem points_total_monotone (ops : List CreditOp) (db : DB) (u : String) (r : PointsRow)
    (_hpos : ∀ op ∈ ops, 0 < opPoints op) (hr : db.user_points u = some r) :
    ∃ r', (applyOps db ops).user_points u = some r' ∧
      r.points_total ≤ r'.points_total := by
  -- positivity is part of the claim but not needed: GREATEST is monotone anyway
  clear _hpos
  induction ops generalizing db r with
  | nil => exact ⟨r, hr, le_refl _⟩
  | cons op rest ih =>
      obtain ⟨r1, h1, hle1⟩ := applyOp_total_mono op db u r hr
      obtain ⟨r2, h2, hle2⟩ := ih (applyOp db op) r1 h1
      refine ⟨r2, ?_, le_trans hle1 hle2⟩
      simpa only [applyOps, List.foldl_cons] using h2

/-- Claim C10: the `ON CONFLICT DO NOTHING` insert guarantees the
following `SELECT` always finds a balance row, so the `IS NULL` fallback
to 50 is unreachable; on the allocation path the keyed `UPDATE` matches
that one row and a successful call both rewrites the balance row and
appends the history row, never one without the other. -/
theorem select_after_insert_finds_row (db : DB) (u s : String) (p a : Int)
    (hc : existingAllocationCount db u s = 0) :
    (∀ (d : DB) (w : String), ((ensureUserPoints d w).user_points w).isSome) ∧
    (allocate_points_with_history false [] db u p s a).ret = .ok true ∧
    (∃ r0 : PointsRow, (ensureUserPoints db u).user_points u = some r0 ∧
      (allocate_points_with_history false [] db u p s a).db.user_points u =
        some ⟨r0.points_remaining + p, max r0.points_total (r0.points_remaining + p)⟩ ∧
      (allocate_points_with_history false [] db u p s a).db.payment_history =
        db.payment_history ++ [⟨u, s, "atomic_allocation", some a, some "USD"⟩]) := by
  obtain ⟨r0, hr0, he⟩ := alloc_fresh_db [] db u p s a hc
  refine ⟨ensureUserPoints_isSome, ?_, r0, hr0, ?_, ?_⟩
  · rw [he]
  · rw [he]
    show (insertPaymentHistory _ _).user_points u = _
    rw [insertPaymentHistory_points, updateUserPoints_of_some _ u _ r0 hr0 u]
    simp
  · rw [he]
    show (insertPaymentHistory _ _).payment_history = _
    rw [insertPaymentHistory_history, updateUserPoints_history, ensureUserPoints_history]

/-!
Bounds on the lock key.
-/

theorem md5Bytes_lt (m : List Nat) : ∀ b ∈ md5Bytes m, b < 256 := by
  intro b hb
  simp only [md5Bytes, wordLE, List.mem_append, List.mem_cons, List.not_mem_nil,
    or_false] at hb
  rcases hb with h|h|h|h|h|h|h|h|h|h|h|h|h|h|h|h <;> omega

theorem md5Nibbles_lt (m : List Nat) : ∀ d ∈ md5Nibbles m, d < 16 := by
  intro d hd
  simp only [md5Nibbles, List.mem_flatten, List.mem_map] at hd
  obtain ⟨l, ⟨b, hb, rfl⟩, hdl⟩ := hd
  have hb256 := md5Bytes_lt m b hb
  simp only [List.mem_cons, List.not_mem_nil, or_false] at hdl
  rcases hdl with h | h <;> omega

theorem hexVal_foldl_lt (ds : List Nat) : ∀ acc : Nat, (∀ d ∈ ds, d < 16) →
    ds.foldl (fun acc d => 16 * acc + d) acc < 16 ^ ds.length * (acc + 1) := by
  induction ds with
  | nil => intro acc _; simp
  | cons d tl ih =>
      intro acc h
      have hd : d < 16 := h d (List.mem_cons_self ..)
      have htl := ih (16 * acc + d) (fun x hx => h x (List.mem_cons_of_mem _ hx))
      simp only [List.foldl_cons, List.length_cons]
      calc tl.foldl (fun acc d => 16 * acc + d) (16 * acc + d)
          < 16 ^ tl.length * (16 * acc + d + 1) := htl
        _ ≤ 16 ^ tl.length * (16 * (acc + 1)) := Nat.mul_le_mul_left _ (by omega)
        _ = 16 ^ (tl.length + 1) * (acc + 1) := by ring

theorem hexVal_lt (ds : List Nat) (h : ∀ d ∈ ds, d < 16) :
    hexVal ds < 16 ^ ds.length := by
  simpa using hexVal_foldl_lt ds 0 h

theorem lockKeyOf_lt (uid sub : String) : lockKeyOf uid sub < 2 ^ 60 := by
  have h16 : ∀ d ∈ List.take 15 (md5Nibbles (strBytes (uid ++ sub))), d < 16 :=
    fun d hd => md5Nibbles_lt _ d (List.mem_of_mem_take hd)
  have h := hexVal_lt _ h16
  have hlen : (List.take 15 (md5Nibbles (strBytes (uid ++ sub)))).length ≤ 15 :=
    List.length_take_le ..
  calc lockKeyOf uid sub
      < 16 ^ (List.take 15 (md5Nibbles (strBytes (uid ++ sub)))).length := h
    _ ≤ 16 ^ 15 := Nat.pow_le_pow_right (by omega) hlen
    _ = 2 ^ 60 := by norm_num

theorem lockKey_not_injective_aux :
    ¬ Function.Injective (fun q : String × String => lockKeyOf q.1 q.2) := by
  intro hinj
  have hrep : Function.Injective (fun n : Nat => String.mk (List.replicate n 'a')) := by
    intro m n h
    have hlen := congrArg (fun s : String => s.data.length) h
    simpa using hlen
  have hg : Function.Injective (fun n : Nat =>
      (⟨lockKeyOf "u" (String.mk (List.replicate n 'a')),
        lockKeyOf_lt "u" (String.mk (List.replicate n 'a'))⟩ : Fin (2 ^ 60))) := by
    intro m n h
    have h1 : lockKeyOf "u" (String.mk (List.replicate m 'a')) =
        lockKeyOf "u" (String.mk (List.replicate n 'a')) := congrArg Fin.val h
    have h2 := hinj (show (fun q : String × String => lockKeyOf q.1 q.2)
        ("u", String.mk (List.replicate m 'a')) =
      (fun q : String × String => lockKeyOf q.1 q.2)
        ("u", String.mk (List.replicate n 'a')) from h1)
    exact hrep (congrArg Prod.snd h2)
  haveI : Finite Nat := Finite.of_injective _ hg
  exact not_finite Nat

/-- Claim C8 counterexample: the 60-bit lock key is not injective on
`(user_id, external_event_id)` pairs — some two distinct pairs share an
advisory-lock key, because the keys live in a finite space while the
pairs do not (even for one fixed user). -/
theorem lockKey_collision_exists :
    ∃ q1 q2 : String × String, q1 ≠ q2 ∧ lockKeyOf q1.1 q1.2 = lockKeyOf q2.1 q2.2 := by
  by_contra h
  push_neg at h
  refine lockKey_not_injective_aux (fun q1 q2 hk => ?_)
  by_contra hne
  exact h q1 q2 hne hk

set_option maxRecDepth 8192 in
/-- Claim C8 amended: the lock key is a deterministic function of the
pair, bounded below `2 ^ 60`; it is neither a global nor a per-user lock
(distinct subscription ids of one user, and distinct users with one
subscription id, receive distinct keys on these concrete inputs), but
60-bit truncation prevents injectivity on all pairs. -/
theorem lockKey_bounded_and_discriminating :
    (∀ uid sub : String, lockKeyOf uid sub < 2 ^ 60) ∧
    lockKeyOf "U1" "S1" ≠ lockKeyOf "U1" "S2" ∧
    lockKeyOf "U1" "S1" ≠ lockKeyOf "U2" "S1" := by
  refine ⟨lockKeyOf_lt, by decide, by decide⟩

/-!
Preservation lemmas for the webhook handlers.
-/

theorem upsertSubscription_history (db : DB) (sid : String) (row : SubRow) :
    (upsertSubscription db sid row).payment_history = db.payment_history := rfl

theorem updateSubscriptionStatus_history (db : DB) (sid st : String) :
    (updateSubscriptionStatus db sid st).payment_history = db.payment_history := by
  unfold updateSubscriptionStatus; split <;> rfl

theorem updateSubscriptionStatus_lookup (db : DB) (sid st : String) (r : SubRow)
    (hr : db.user_subscriptions sid = some r) :
    (updateSubscriptionStatus db sid st).user_subscriptions sid =
      some { r with status := st } := by
  unfold updateSubscriptionStatus
  rw [hr]
  simp

theorem alloc_db_subs (f : Bool) (L : List Nat) (db : DB) (u : String) (p : Int)
    (s : String) (a : Int) :
    (allocate_points_with_history f L db u p s a).db.user_subscriptions =
      db.user_subscriptions := by
  simp only [allocate_points_with_history]
  split
  · rfl
  · split
    · rfl
    · show (insertPaymentHistory _ _).user_subscriptions = _
      rw [insertPaymentHistory_subs, updateUserPoints_subs, ensureUserPoints_subs]

theorem allocPoints_subs (f : Bool) (st : St) (sid : String) :
    (allocatePointsForSubscription f st sid).db.user_subscriptions =
      st.db.user_subscriptions := by
  simp only [allocatePointsForSubscription, logI, logE]
  split
  · rfl
  · split <;> exact alloc_db_subs ..

theorem atomicAllocationCount_ensureU (db : DB) (u0 u s : String) :
    atomicAllocationCount (ensureUserPoints db u0) u s = atomicAllocationCount db u s := by
  simp only [atomicAllocationCount, ensureUserPoints_history]

theorem atomicAllocationCount_updateU (db : DB) (u0 : String) (v : Int) (u s : String) :
    atomicAllocationCount (updateUserPoints db u0 v) u s = atomicAllocationCount db u s := by
  simp only [atomicAllocationCount, updateUserPoints_history]

theorem alloc_atomic_le (f : Bool) (L : List Nat) (db : DB) (u0 : String) (p : Int)
    (s0 : String) (a : Int) (u s : String) :
    atomicAllocationCount (allocate_points_with_history f L db u0 p s0 a).db u s ≤
      max (atomicAllocationCount db u s) 1 := by
  rcases Nat.eq_zero_or_pos (existingAllocationCount db u0 s0) with h | h
  · cases f with
    | true => rw [alloc_fail L db u0 p s0 a h]; exact le_max_left _ _
    | false =>
        obtain ⟨r0, _, he⟩ := alloc_fresh_db L db u0 p s0 a h
        rw [he]
        show atomicAllocationCount (insertPaymentHistory _ _) u s ≤ _
        rw [atomicAllocationCount_insert, atomicAllocationCount_updateU,
          atomicAllocationCount_ensureU]
        by_cases hm : u0 = u ∧ s0 = s
        · obtain ⟨rfl, rfl⟩ := hm
          have h0 : atomicAllocationCount db u0 s0 = 0 :=
            Nat.le_zero.mp (h ▸ atomicAllocationCount_le db u0 s0)
          simp [h0]
        · rcases not_and_or.mp hm with hne | hne
          · simp only [beq_eq_false_iff_ne.mpr hne, Bool.false_and, if_neg Bool.false_ne_true,
              Nat.add_zero]
            exact le_max_left _ _
          · simp only [beq_eq_false_iff_ne.mpr hne, Bool.false_and, Bool.and_false,
              if_neg Bool.false_ne_true, Nat.add_zero]
            exact le_max_left _ _
  · rw [alloc_dup f L db u0 p s0 a h]
    exact le_max_left _ _

theorem insert_nonatomic_count (db : DB) (row : HistoryRow) (u s : String)
    (h : row.event_type ≠ "atomic_allocation") :
    atomicAllocationCount (insertPaymentHistory db row) u s =
      atomicAllocationCount db u s := by
  rw [atomicAllocationCount_insert]
  simp [beq_eq_false_iff_ne.mpr h]

theorem allocPoints_atomic_le (f : Bool) (st : St) (sid : String) (u s : String) :
    atomicAllocationCount (allocatePointsForSubscription f st sid).db u s ≤
      max (atomicAllocationCount st.db u s) 1 := by
  simp only [allocatePointsForSubscription, logI, logE]
  split
  · exact le_max_left _ _
  · split <;> exact alloc_atomic_le ..

theorem processEvent_atomic_le (f : Bool) (st : St) (e : WebhookEvent) (u s : String) :
    atomicAllocationCount (processEvent f st e).db u s ≤
      max (atomicAllocationCount st.db u s) 1 := by
  simp only [processEvent, logI]
  split
  · -- subscription created
    simp only [handleSubscriptionCreated, logI, logE]
    split
    · exact le_max_left _ _
    · split
      · exact le_max_left _ _
      · simp only [atomicAllocationCount, upsertSubscription_history]
        exact le_max_left _ _
  · -- subscription activated
    simp only [handleSubscriptionActivated, logI]
    refine le_trans (allocPoints_atomic_le ..) ?_
    simp only [atomicAllocationCount, updateSubscriptionStatus_history]
    exact le_refl _
  · -- payment completed
    simp only [handlePaymentCompleted, logI, logE]
    split
    · exact le_max_left _ _
    · rw [insert_nonatomic_count _ _ u s
        (by show "payment_completed" ≠ "atomic_allocation"; decide)]
      exact allocPoints_atomic_le ..
  · -- subscription cancelled
    simp only [handleSubscriptionCancelled, logI, atomicAllocationCount,
      updateSubscriptionStatus_history]
    exact le_max_left _ _
  · -- subscription suspended
    simp only [handleSubscriptionSuspended, logI, atomicAllocationCount,
      updateSubscriptionStatus_history]
    exact le_max_left _ _
  · -- payment failed
    simp only [handlePaymentFailed, logI, logE]
    split
    · exact le_max_left _ _
    · rw [insert_nonatomic_count _ _ u s
        (by show "payment_failed" ≠ "atomic_allocation"; decide)]
      exact le_max_left _ _
  · -- unhandled event type
    exact le_max_left _ _

/-- Claim C2 amended: across any sequence of webhook deliveries, each
`(user_id, external_event_id)` pair keeps at most one `atomic_allocation`
row — the row the atomic credit writes.  (The full counts-as-allocation
set does not stay unique: see the counterexample.) -/
theorem atomic_allocation_at_most_one (f : Bool) (events : List WebhookEvent) (st : St)
    (h0 : ∀ u s, atomicAllocationCount st.db u s ≤ 1) :
    ∀ u s, atomicAllocationCount (processEvents f st events).db u s ≤ 1 := by
  induction events generalizing st with
  | nil => exact h0
  | cons e rest ih =>
      have hstep : ∀ u s, atomicAllocationCount (processEvent f st e).db u s ≤ 1 :=
        fun u s => le_trans (processEvent_atomic_le f st e u s)
          (max_le (h0 u s) (le_refl 1))
      simpa only [processEvents, List.foldl_cons] using ih (processEvent f st e) hstep

/-- Claim C2 counterexample: one `PAYMENT.SALE.COMPLETED` delivery on a
fresh subscription leaves two counts-as-allocation rows for the pair
`("U1", "S1")`: the allocator's `atomic_allocation` row plus the
handler's own `payment_completed` log row. -/
theorem payment_completed_creates_two_allocation_rows :
    existingAllocationCount (processEvent false ⟨dbA, []⟩ evPay).db "U1" "S1" = 2 ∧
    (processEvent false ⟨dbA, []⟩ evPay).db.payment_history.map (fun r => r.event_type)
      = ["atomic_allocation", "payment_completed"] := by
  exact ⟨by decide, by decide⟩

/-- Claim C5 amended: the receiver answers 200 for every request whose
body parses as an event — including duplicates, unknown event types and
requests whose allocation RPC fails (the error is logged and swallowed) —
and 500 exactly when the body does not parse. -/
theorem response_ok_iff_parsed (f : Bool) (st : St) (payload : Option WebhookEvent) :
    (serveWebhook f st payload).2.status = 200 ↔ payload.isSome := by
  cases payload <;> simp [serveWebhook]

/-- Claim C5 counterexample: a well-formed `PAYMENT.SALE.COMPLETED` event
whose allocation RPC fails is still answered 200, and the credit is lost
(the balance row keeps its old value; with a working RPC the same request
credits 1250). -/
theorem storage_failure_answered_success :
    (serveWebhook true ⟨dbA, []⟩ (some evPay)).2.status = 200 ∧
    (serveWebhook true ⟨dbA, []⟩ (some evPay)).1.db.user_points "U1" = some ⟨100, 200⟩ ∧
    (serveWebhook false ⟨dbA, []⟩ (some evPay)).1.db.user_points "U1" =
      some ⟨1350, 1350⟩ := by
  exact ⟨rfl, by decide, by decide⟩

/-- Claim C6 counterexample: a `BILLING.SUBSCRIPTION.ACTIVATED` delivery
for a subscription whose status is `cancelled` moves it to `active` — the
handlers carry no terminal-state guard. -/
theorem activated_overrides_cancelled :
    ((processEvent false ⟨dbB, []⟩ evAct).db.user_subscriptions "S1").map
        (fun r => r.status) = some "active" ∧
    ((processEvent false ⟨dbB, []⟩ evAct).db.user_subscriptions "S1").map
        (fun r => r.status) ≠ some "cancelled" :=
  ⟨by decide, by decide⟩

/-- Claim C6 amended: the lifecycle handlers overwrite the subscription
status unconditionally — an activated event sets `active` and a suspended
event sets `suspended` whatever the previous status was, including the
nominally terminal `cancelled`. -/
theorem lifecycle_status_unconditional (f : Bool) (db : DB) (lg : List LogEntry)
    (eid : String) (rsrc : Resource) (r : SubRow)
    (hr : db.user_subscriptions rsrc.id = some r) :
    ((processEvent f ⟨db, lg⟩ ⟨eid, "BILLING.SUBSCRIPTION.ACTIVATED", rsrc⟩).db.user_subscriptions
        rsrc.id).map (fun x => x.status) = some "active" ∧
    ((processEvent f ⟨db, lg⟩ ⟨eid, "BILLING.SUBSCRIPTION.SUSPENDED", rsrc⟩).db.user_subscriptions
        rsrc.id).map (fun x => x.status) = some "suspended" := by
  constructor
  · have hs : (processEvent f ⟨db, lg⟩
        ⟨eid, "BILLING.SUBSCRIPTION.ACTIVATED", rsrc⟩).db.user_subscriptions
        = (updateSubscriptionStatus db rsrc.id "active").user_subscriptions := by
      show (allocatePointsForSubscription f
          ⟨updateSubscriptionStatus db rsrc.id "active",
            (lg ++ [⟨LogLevel.log, "PayPal Webhook Event:"⟩]) ++
              [⟨LogLevel.log, "Processing subscription activated event"⟩]⟩
          rsrc.id).db.user_subscriptions = _
      exact allocPoints_subs ..
    rw [hs, updateSubscriptionStatus_lookup db rsrc.id "active" r hr]
    rfl
  · have hs : (processEvent f ⟨db, lg⟩
        ⟨eid, "BILLING.SUBSCRIPTION.SUSPENDED", rsrc⟩).db
        = updateSubscriptionStatus db rsrc.id "suspended" := rfl
    rw [hs, updateSubscriptionStatus_lookup db rsrc.id "suspended" r hr]
    rfl

/-- Claim C9 counterexample: a created-then-activated pair with a plan id
missing from the catalog succeeds end to end (status 200 twice), resolves
the plan to `free`, credits 50 points — and logs no warning at any point:
the fallback is silent. -/
theorem unknown_plan_no_warning :
    (serveWebhook false ⟨dbN, []⟩ (some evCreate9)).2.status = 200 ∧
    (serveWebhook false ⟨dbN, []⟩ (some evCreate9)).1.db.user_subscriptions "S9" =
      some ⟨"U1", "free", "created"⟩ ∧
    (serveWebhook false (serveWebhook false ⟨dbN, []⟩ (some evCreate9)).1
      (some evAct9)).2.status = 200 ∧
    (serveWebhook false (serveWebhook false ⟨dbN, []⟩ (some evCreate9)).1
      (some evAct9)).1.db.user_points "U1" = some ⟨150, 200⟩ ∧
    ((serveWebhook false (serveWebhook false ⟨dbN, []⟩ (some evCreate9)).1
      (some evAct9)).1.log.all (fun en => en.level != LogLevel.warn)) = true :=
  ⟨rfl, by decide, rfl, by decide, by decide⟩

theorem planMapping_default (pid : String)
    (h1 : pid ≠ "P-5ML4271244454362WXNWU5NQ")
    (h2 : pid ≠ "P-1GJ4899448696344MXNWU5NQ")
    (h3 : pid ≠ "P-2RT4271244454362WXNWU5NQ") :
    planMapping (some pid) = "free" := by
  unfold planMapping
  split <;> simp_all

/-- Claim C9 amended: a subscription-created event whose plan id is not
in the catalog never fails the request: it is answered 200, the
subscription is upserted with the lowest tier `free` (whose point
allocation is 50), and nothing beyond ordinary info entries is logged —
in particular no warning. -/
theorem unknown_plan_defaults_free (f : Bool) (st : St) (eid sid email uid pid : String)
    (huser : st.db.user_profiles email = some uid)
    (h1 : pid ≠ "P-5ML4271244454362WXNWU5NQ")
    (h2 : pid ≠ "P-1GJ4899448696344MXNWU5NQ")
    (h3 : pid ≠ "P-2RT4271244454362WXNWU5NQ") :
    (serveWebhook f st (some ⟨eid, "BILLING.SUBSCRIPTION.CREATED",
      ⟨sid, some email, some pid⟩⟩)).2.status = 200 ∧
    (serveWebhook f st (some ⟨eid, "BILLING.SUBSCRIPTION.CREATED",
      ⟨sid, some email, some pid⟩⟩)).1.db.user_subscriptions sid =
        some ⟨uid, "free", "created"⟩ ∧
    pointsAllocation "free" = 50 ∧
    ∀ en ∈ (serveWebhook f st (some ⟨eid, "BILLING.SUBSCRIPTION.CREATED",
      ⟨sid, some email, some pid⟩⟩)).1.log, en ∈ st.log ∨ en.level ≠ LogLevel.warn := by
  have hrun : (serveWebhook f st (some ⟨eid, "BILLING.SUBSCRIPTION.CREATED",
      ⟨sid, some email, some pid⟩⟩)).1 =
      ⟨upsertSubscription st.db sid ⟨uid, planMapping (some pid), "created"⟩,
        (st.log ++ [⟨LogLevel.log, "PayPal Webhook Event:"⟩]) ++
          [⟨LogLevel.log, "Processing subscription created event"⟩]⟩ := by
    show handleSubscriptionCreated
        ⟨st.db, st.log ++ [⟨LogLevel.log, "PayPal Webhook Event:"⟩]⟩
        ⟨eid, "BILLING.SUBSCRIPTION.CREATED", ⟨sid, some email, some pid⟩⟩ = _
    simp only [handleSubscriptionCreated, logI, logE, huser]
  refine ⟨rfl, ?_, rfl, ?_⟩
  · rw [hrun]
    show (upsertSubscription st.db sid _).user_subscriptions sid = _
    rw [planMapping_default pid h1 h2 h3]
    simp [upsertSubscription]
  · intro en hen
    rw [hrun] at hen
    simp only [List.mem_append, List.mem_cons, List.not_mem_nil, or_false] at hen
    rcases hen with (h | h) | h
    · exact Or.inl h
    · subst h; exact Or.inr (by simp)
    · subst h; exact Or.inr (by simp)

/-!
Witnesses: each hypothesis-bearing claim theorem evaluated at a concrete
state.
-/

/-- Witness for `creditN_idempotent`: two deliveries of the same event on
`dbA` credit 1250 exactly once. -/
theorem creditN_idempotent_witness :
    (0 < 2 ∧ 0 < (1250 : Int) ∧ dbA.user_points "U1" = some ⟨100, 200⟩ ∧
      existingAllocationCount dbA "U1" "S1" = 0) ∧
    ((creditN 2 dbA "U1" 1250 "S1" 29).2 = true :: List.replicate (2 - 1) false ∧
      (creditN 2 dbA "U1" 1250 "S1" 29).1.user_points "U1" =
        some ⟨100 + 1250, max 200 (100 + 1250)⟩ ∧
      existingAllocationCount (creditN 2 dbA "U1" 1250 "S1" 29).1 "U1" "S1" = 1) :=
  ⟨⟨by decide, by decide, by decide, by decide⟩,
    creditN_idempotent 2 dbA "U1" "S1" 1250 29 ⟨100, 200⟩ (by decide) (by decide)
      (by decide) (by decide)⟩

/-- Witness for `atomic_allocation_at_most_one`: three deliveries on
`dbA` keep at most one `atomic_allocation` row per pair. -/
theorem atomic_allocation_at_most_one_witness :
    (∀ u s, atomicAllocationCount dbA u s ≤ 1) ∧
    (∀ u s, atomicAllocationCount
      (processEvents false ⟨dbA, []⟩ [evPay, evPay, evAct]).db u s ≤ 1) :=
  ⟨fun _ _ => Nat.zero_le 1,
    atomic_allocation_at_most_one false [evPay, evPay, evAct] ⟨dbA, []⟩
      (fun _ _ => Nat.zero_le 1)⟩

/-- Witness for `lock_released_and_retry_succeeds` on `dbA` with one
foreign lock held. -/
theorem lock_released_and_retry_succeeds_witness :
    (dbA.user_points "U1" = some ⟨100, 200⟩ ∧
      existingAllocationCount dbA "U1" "S1" = 0) ∧
    ((∀ (f : Bool) (L : List Nat) (d : DB) (u' : String) (p' : Int) (s' : String) (a' : Int),
        (allocate_points_with_history f L d u' p' s' a').locks = L) ∧
      (allocate_points_with_history true [7] dbA "U1" 1250 "S1" 29).db = dbA ∧
      (allocate_points_with_history true [7] dbA "U1" 1250 "S1" 29).ret = .error ∧
      (allocate_points_with_history false [7] dbA "U1" 1250 "S1" 29).ret = .ok true ∧
      (allocate_points_with_history false [7] dbA "U1" 1250 "S1" 29).db.user_points "U1" =
        some ⟨100 + 1250, max 200 (100 + 1250)⟩ ∧
      existingAllocationCount
        (allocate_points_with_history false [7] dbA "U1" 1250 "S1" 29).db "U1" "S1" = 1) :=
  ⟨⟨by decide, by decide⟩,
    lock_released_and_retry_succeeds [7] dbA "U1" "S1" 1250 29 ⟨100, 200⟩
      (by decide) (by decide)⟩

/-- Witness for `credit_isolated_keys`: the spec scenario with amounts
1250 then 3500 under distinct subscription ids. -/
theorem credit_isolated_keys_witness :
    ("S1" ≠ "S2" ∧ 0 < (1250 : Int) ∧ 0 < (3500 : Int) ∧
      dbA.user_points "U1" = some ⟨100, 200⟩ ∧
      existingAllocationCount dbA "U1" "S1" = 0 ∧
      existingAllocationCount dbA "U1" "S2" = 0) ∧
    ((credit dbA "U1" 1250 "S1" 29).2 = true ∧
      (credit (credit dbA "U1" 1250 "S1" 29).1 "U1" 3500 "S2" 79).2 = true ∧
      (∃ t : Int, (credit (credit dbA "U1" 1250 "S1" 29).1 "U1" 3500 "S2" 79).1.user_points "U1" =
        some ⟨100 + 1250 + 3500, t⟩) ∧
      existingAllocationCount
        (credit (credit dbA "U1" 1250 "S1" 29).1 "U1" 3500 "S2" 79).1 "U1" "S1" = 1 ∧
      existingAllocationCount
        (credit (credit dbA "U1" 1250 "S1" 29).1 "U1" 3500 "S2" 79).1 "U1" "S2" = 1) :=
  ⟨⟨by decide, by decide, by decide, by decide, by decide, by decide⟩,
    credit_isolated_keys dbA "U1" "S1" "S2" 1250 3500 29 79 ⟨100, 200⟩
      (by decide) (by decide) (by decide) (by decide) (by decide) (by decide)⟩

/-- Witness for `lifecycle_status_unconditional` on the cancelled
subscription of `dbB`. -/
theorem lifecycle_status_unconditional_witness :
    (dbB.user_subscriptions (Resource.id ⟨"S1", none, none⟩) =
      some ⟨"U1", "pro", "cancelled"⟩) ∧
    (((processEvent false ⟨dbB, []⟩
        ⟨"WH-2", "BILLING.SUBSCRIPTION.ACTIVATED", ⟨"S1", none, none⟩⟩).db.user_subscriptions
        (Resource.id ⟨"S1", none, none⟩)).map (fun x => x.status) = some "active" ∧
      ((processEvent false ⟨dbB, []⟩
        ⟨"WH-2", "BILLING.SUBSCRIPTION.SUSPENDED", ⟨"S1", none, none⟩⟩).db.user_subscriptions
        (Resource.id ⟨"S1", none, none⟩)).map (fun x => x.status) = some "suspended") :=
  ⟨by decide,
    lifecycle_status_unconditional false dbB [] "WH-2" ⟨"S1", none, none⟩
      ⟨"U1", "pro", "cancelled"⟩ (by decide)⟩

/-- Witness for `points_total_monotone`: an allocation then a plain
credit never lower the high-water mark 200 of `dbA`. -/
theorem points_total_monotone_witness :
    ((∀ op ∈ [CreditOp.alloc "U1" 1250 "S1" 29, CreditOp.add "U1" 50], 0 < opPoints op) ∧
      dbA.user_points "U1" = some ⟨100, 200⟩) ∧
    (∃ r', (applyOps dbA [CreditOp.alloc "U1" 1250 "S1" 29, CreditOp.add "U1" 50]).user_points
        "U1" = some r' ∧ (200 : Int) ≤ r'.points_total) :=
  ⟨⟨by decide, by decide⟩,
    points_total_monotone [CreditOp.alloc "U1" 1250 "S1" 29, CreditOp.add "U1" 50] dbA
      "U1" ⟨100, 200⟩ (by decide) (by decide)⟩

/-- Witness for `unknown_plan_defaults_free` on `dbN` with the unknown
plan id `P-UNKNOWN`. -/
theorem unknown_plan_defaults_free_witness :
    ((dbN.user_profiles "a@b.c" = some "U1") ∧
      "P-UNKNOWN" ≠ "P-5ML4271244454362WXNWU5NQ" ∧
      "P-UNKNOWN" ≠ "P-1GJ4899448696344MXNWU5NQ" ∧
      "P-UNKNOWN" ≠ "P-2RT4271244454362WXNWU5NQ") ∧
    ((serveWebhook false ⟨dbN, []⟩ (some ⟨"WH-3", "BILLING.SUBSCRIPTION.CREATED",
        ⟨"S9", some "a@b.c", some "P-UNKNOWN"⟩⟩)).2.status = 200 ∧
      (serveWebhook false ⟨dbN, []⟩ (some ⟨"WH-3", "BILLING.SUBSCRIPTION.CREATED",
        ⟨"S9", some "a@b.c", some "P-UNKNOWN"⟩⟩)).1.db.user_subscriptions "S9" =
          some ⟨"U1", "free", "created"⟩ ∧
      pointsAllocation "free" = 50 ∧
      ∀ en ∈ (serveWebhook false ⟨dbN, []⟩ (some ⟨"WH-3", "BILLING.SUBSCRIPTION.CREATED",
        ⟨"S9", some "a@b.c", some "P-UNKNOWN"⟩⟩)).1.log,
          en ∈ ([] : List LogEntry) ∨ en.level ≠ LogLevel.warn) :=
  ⟨⟨by decide, by decide, by decide, by decide⟩,
    unknown_plan_defaults_free false ⟨dbN, []⟩ "WH-3" "S9" "a@b.c" "U1" "P-UNKNOWN"
      (by decide) (by decide) (by decide) (by decide)⟩

/-- Witness for `select_after_insert_finds_row` on `dbA`. -/
theorem select_after_insert_finds_row_witness :
    (existingAllocationCount dbA "U1" "S1" = 0) ∧
    ((∀ (d : DB) (w : String), ((ensureUserPoints d w).user_points w).isSome) ∧
      (allocate_points_with_history false [] dbA "U1" 1250 "S1" 29).ret = .ok true ∧
      (∃ r0 : PointsRow, (ensureUserPoints dbA "U1").user_points "U1" = some r0 ∧
        (allocate_points_with_history false [] dbA "U1" 1250 "S1" 29).db.user_points "U1" =
          some ⟨r0.points_remaining + 1250, max r0.points_total (r0.points_remaining + 1250)⟩ ∧
        (allocate_points_with_history false [] dbA "U1" 1250 "S1" 29).db.payment_history =
          dbA.payment_history ++ [⟨"U1", "S1", "atomic_allocation", some 29, some "USD"⟩])) :=
  ⟨by decide, select_after_insert_finds_row dbA "U1" "S1" 1250 29 (by decide)⟩

end LemmeWrite

